import Mathlib

/-!
Shallow embedding of `src/bot.js` (the Moody Tunes LUIS bot).

The bot's single turn handler `onTurn` dispatches on the activity type:
on a `Message` it calls the LUIS recognizer, unconditionally selects a
random video for the returned sentiment from the media library, and then
either sends an acknowledgment plus a hero card (intent not "None") or,
on a lower-cased greeting, the onboarding sequence; on a
`ConversationUpdate` it sends the onboarding sequence to every added
member that is not the bot itself.

The external collaborators are parameters: the classifier is a function
from the activity to a classification result, the media library
(`videoLibrary.js`, required by the source but not itself part of the
dispatcher) is a partial map from sentiment labels to video lists, and
`Math.random()` is an explicit rational draw `q` with `0 ≤ q < 1`.
JavaScript `undefined`-dereference failures (indexing a missing library
entry, reading `.length`/`.indexOf`/`.toLowerCase` of `undefined`) are
modelled as `TurnError`s that abort the turn before any further send.
-/

namespace MoodyTunes

/-- JS string interpolation of a possibly-undefined value: `undefined`
prints as the literal string "undefined". -/
def jsDisplay : Option String → String
  | some s => s
  | none => "undefined"

/-- JS `String.prototype.toLowerCase()` (line 56 of `bot.js`),
modelled character-wise. -/
def jsToLowerCase (s : String) : String :=
  String.mk (s.data.map Char.toLower)

/-- Whitespace trimming of a string at both ends (the spec's
normalization speaks of a lower-cased, *trimmed* body; `bot.js` itself
never trims). -/
def trimWS (s : String) : String :=
  String.mk (((s.data.dropWhile Char.isWhitespace).reverse.dropWhile
    Char.isWhitespace).reverse)

/-- A card button, as built by `CardFactory.heroCard` in `bot.js`
(`type: ActionTypes.OpenUrl, title, value`). -/
inductive CardAction where
  | openUrl (title : String) (value : String)
  deriving DecidableEq

/-- The outbound message payloads `bot.js` can send via
`turnContext.sendActivity`. -/
inductive OutMessage where
  | text (s : String)
  | heroCard (title : String) (images : List String) (buttons : List CardAction)
  | animationCard (title : String) (media : List String)
  | suggestedActions (actions : List String) (prompt : String)
  deriving DecidableEq

/-- The activity types `onTurn` distinguishes (`ActivityTypes.Message`,
`ActivityTypes.ConversationUpdate`, and the `default` branch). -/
inductive ActivityType where
  | message
  | conversationUpdate
  | other
  deriving DecidableEq

/-- A conversation member (an entry of `activity.membersAdded`). -/
structure Member where
  id : String
  deriving DecidableEq

/-- The inbound activity fields `bot.js` reads: `activity.type`,
`activity.text` (possibly absent), `activity.from.name` (possibly
absent), `activity.membersAdded`, and `activity.recipient.id`. -/
structure Activity where
  type : ActivityType
  text : Option String
  fromName : Option String
  membersAdded : List Member
  recipientId : String
  deriving DecidableEq

/-- The part of the LUIS result `onTurn` reads:
`results.luisResult.topScoringIntent.intent` and
`results.luisResult.sentimentAnalysis.label`. -/
structure ClassificationResult where
  intent : String
  sentiment : String
  deriving DecidableEq

/-- The JS `TypeError`s the `Message` branch of `onTurn` can raise:
reading `.length` of the missing library entry `videos[sentiment]`
(line 40), calling `.indexOf` on the `undefined` element of an empty
list (line 41), and calling `.toLowerCase()` on a missing
`activity.text` (line 56). -/
inductive TurnError where
  | mediaLibraryUndefined
  | videoUndefined
  | textUndefined
  deriving DecidableEq

/-- JS `String.prototype.indexOf` on character lists: index of the first
occurrence of `pat`, `-1` when absent. -/
def listIndexOf : List Char → List Char → Int
  | xs, pat =>
    if xs.take pat.length = pat then 0
    else
      match xs with
      | [] => -1
      | _ :: t =>
        let r := listIndexOf t pat
        if r = -1 then -1 else r + 1

/-- Lines 41-42 of `bot.js`:
`let idx = randomVideo.indexOf('v='); let videoId =
randomVideo.substring(idx + 2, randomVideo.length)` (JS `substring`
clamps a negative start to 0). -/
def videoIdOf (randomVideo : String) : String :=
  let idx := listIndexOf randomVideo.data [Char.ofNat 118, Char.ofNat 61]
  String.mk (randomVideo.data.drop (idx + 2).toNat)

/-- Line 43 of `bot.js`: the YouTube thumbnail URL built from the video id. -/
def videoPreviewOf (randomVideo : String) : String :=
  "https://img.youtube.com/vi/" ++ videoIdOf randomVideo ++ "/0.jpg"

/-- Lines 40-41 of `bot.js`:
`videos[sentiment][Math.floor(Math.random()*videos[sentiment].length)]`
followed by the `.indexOf` dereference of the chosen element. A missing
library entry or an out-of-range index (the empty-list case) raises a
`TypeError`, modelled as `Except.error`. The random draw `q` stands for
the `Math.random()` result. -/
def selectVideo (videos : String → Option (List String)) (sentiment : String)
    (q : ℚ) : Except TurnError String :=
  match videos sentiment with
  | none => Except.error TurnError.mediaLibraryUndefined
  | some lst =>
    match lst[(⌊q * (lst.length : ℚ)⌋).toNat]? with
    | none => Except.error TurnError.videoUndefined
    | some v => Except.ok v

/-- Lines 45-55 of `bot.js`: the hero card attachment (empty title, the
thumbnail as image, one `OpenUrl` button whose value is the video URL). -/
def heroOf (randomVideo : String) : OutMessage :=
  OutMessage.heroCard "" [videoPreviewOf randomVideo]
    [CardAction.openUrl "Open in Youtube" randomVideo]

/-- The welcome GIF URL of `welcomeUser` / `welcomeUserMessage`. -/
def gifUrl : String :=
  "https://i.pinimg.com/originals/34/f0/9f/34f09f59e193f07cda58088545859a88.gif"

/-- Line 58 of `bot.js`: the fixed acknowledgment text. -/
def ackText : String := "Here's my suggestion based on your mood, enjoy!"

/-- The suggested-replies greeting text, interpolating
`activity.from.name`. -/
def greetText (fromName : Option String) : String :=
  "Hi " ++ jsDisplay fromName ++
    ", I am Moody Tunes bot. I can suggest a song depending on your mood.. Start by choosing a mood:"

/-- The two-message onboarding sequence sent by both `welcomeUser` and
`welcomeUserMessage`: the animation card, then the suggested-replies
prompt with the four mood options. -/
def onboardingMessages (fromName : Option String) : List OutMessage :=
  [OutMessage.animationCard "Welcome to Moody Tunes" [gifUrl],
   OutMessage.suggestedActions ["Happy", "Depressed", "Angry", "Splendid"]
     (greetText fromName)]

/-- Lines 106-117 of `bot.js` (`welcomeUserMessage`). -/
def welcomeUserMessage (a : Activity) : List OutMessage :=
  onboardingMessages a.fromName

/-- Lines 80-104 of `bot.js` (`welcomeUser`): for each added member
whose id differs from the recipient (bot) id, send the onboarding
sequence; the outer `length !== 0` guard matches the source. -/
def welcomeUser (a : Activity) : List OutMessage :=
  if a.membersAdded.length ≠ 0 then
    a.membersAdded.flatMap (fun m =>
      if m.id ≠ a.recipientId then onboardingMessages a.fromName else [])
  else []

/-- The observable outcome of one turn: whether the LUIS recognizer was
invoked, the messages sent (in order), and the error, if any, that
aborted the turn. -/
structure TurnOutcome where
  classifierCalled : Bool
  sent : List OutMessage
  err : Option TurnError
  deriving DecidableEq

/-- Lines 28-72 of `bot.js` (`onTurn`). The `Message` branch first calls
the recognizer, then computes the random video and the hero card, then
lowercases `activity.text`, and only then branches on the intent and the
greeting check; each `undefined` dereference aborts the turn with the
messages sent so far (none). -/
def onTurn (classify : Activity → ClassificationResult)
    (videos : String → Option (List String)) (q : ℚ) (a : Activity) :
    TurnOutcome :=
  match a.type with
  | ActivityType.message =>
    let results := classify a
    let topIntent := results.intent
    let sentiment := results.sentiment
    match selectVideo videos sentiment q with
    | Except.error e => ⟨true, [], some e⟩
    | Except.ok randomVideo =>
      match a.text with
      | none => ⟨true, [], some TurnError.textUndefined⟩
      | some body =>
        let text := jsToLowerCase body
        if topIntent ≠ "None" then
          ⟨true, [OutMessage.text ackText, heroOf randomVideo], none⟩
        else if text = "hi" ∨ text = "hello" then
          ⟨true, welcomeUserMessage a, none⟩
        else
          ⟨true, [], none⟩
  | ActivityType.conversationUpdate => ⟨false, welcomeUser a, none⟩
  | ActivityType.other => ⟨false, [], none⟩

/-- The per-user welcomed flag store (spec §6: key-value store keyed by
user identity holding one boolean). `bot.js` creates the property
accessor in the constructor but `onTurn` never reads or writes it. -/
def WelcomeStore : Type := String → Option Bool

/-- One full turn together with the persisted state: `onTurn` leaves the
welcomed-flag store untouched. -/
def handleTurn (classify : Activity → ClassificationResult)
    (videos : String → Option (List String)) (q : ℚ) (a : Activity)
    (w : WelcomeStore) : TurnOutcome × WelcomeStore :=
  (onTurn classify videos q a, w)

/-! Concrete classifiers, media libraries and activities used to
exercise the theorems below on closed inputs. -/

/-- A classifier returning a confident intent and sentiment "Happy". -/
def clMusic : Activity → ClassificationResult := fun _ => ⟨"PlayMusic", "Happy"⟩

/-- A classifier returning the sentinel intent "None" and sentiment "Sad". -/
def clNone : Activity → ClassificationResult := fun _ => ⟨"None", "Sad"⟩

/-- A classifier returning intent "None" and a sentiment label absent
from the libraries below. -/
def clWeird : Activity → ClassificationResult := fun _ => ⟨"None", "Weird"⟩

/-- A media library with two videos under "Happy". -/
def vidsHappy : String → Option (List String) := fun s =>
  if s = "Happy" then
    some ["https://www.youtube.com/watch?v=abc", "https://www.youtube.com/watch?v=def"]
  else none

/-- A media library with one video under "Sad". -/
def vidsSad : String → Option (List String) := fun s =>
  if s = "Sad" then some ["https://www.youtube.com/watch?v=abc"] else none

/-- A media library whose "Sad" entry is present but empty. -/
def vidsSadEmpty : String → Option (List String) := fun s =>
  if s = "Sad" then some [] else none

/-- A second library agreeing with `vidsSad` at "Sad" but nowhere else. -/
def vidsSadB : String → Option (List String) := fun s =>
  if s = "Sad" then some ["https://www.youtube.com/watch?v=abc"] else some []

/-- A message activity with a non-greeting body. -/
def actPlay : Activity :=
  ⟨ActivityType.message, some "play something", some "Ada", [], "bot"⟩

/-- A message activity whose body is a greeting only after trimming. -/
def actHiSpace : Activity :=
  ⟨ActivityType.message, some " hi ", some "Ada", [], "bot"⟩

/-- A message activity whose lower-cased body is "hello". -/
def actHello : Activity :=
  ⟨ActivityType.message, some "Hello", some "Ada", [], "bot"⟩

/-- A message activity with small talk that is no greeting. -/
def actChat : Activity :=
  ⟨ActivityType.message, some "what a day", some "Ada", [], "bot"⟩

/-- A malformed message activity: no body text. -/
def actNoBody : Activity :=
  ⟨ActivityType.message, none, some "Ada", [], "bot"⟩

/-- A conversation-update activity where one of the two added members is
the bot itself. -/
def actJoin : Activity :=
  ⟨ActivityType.conversationUpdate, none, some "Ada",
   [Member.mk "user1", Member.mk "bot"], "bot"⟩

/-! Helper lemmas characterising `selectVideo` and the branches of
`onTurn`. -/

/-- A missing library entry raises the first `TypeError`. -/
theorem selectVideo_none (videos : String → Option (List String)) (s : String)
    (q : ℚ) (h : videos s = none) :
    selectVideo videos s q = Except.error TurnError.mediaLibraryUndefined := by
  simp [selectVideo, h]

/-- An empty library entry raises the second `TypeError`. -/
theorem selectVideo_empty (videos : String → Option (List String)) (s : String)
    (q : ℚ) (h : videos s = some []) :
    selectVideo videos s q = Except.error TurnError.videoUndefined := by
  simp [selectVideo, h]

/-- With a non-empty entry and a draw in `[0, 1)`, selection returns a
member of exactly that entry. -/
theorem selectVideo_mem (videos : String → Option (List String)) (s : String)
    (q : ℚ) (lst : List String) (hq0 : 0 ≤ q) (hq1 : q < 1)
    (hlst : videos s = some lst) (hne : lst ≠ []) :
    ∃ v ∈ lst, selectVideo videos s q = Except.ok v := by
  have hlen : 0 < lst.length := List.length_pos.mpr hne
  have hidx : (⌊q * (lst.length : ℚ)⌋).toNat < lst.length := by
    have hl0 : (0 : ℚ) < (lst.length : ℚ) := by exact_mod_cast hlen
    have h1 : ⌊q * (lst.length : ℚ)⌋ < (lst.length : ℤ) := by
      rw [Int.floor_lt]
      push_cast
      calc q * (lst.length : ℚ) < 1 * (lst.length : ℚ) :=
            mul_lt_mul_of_pos_right hq1 hl0
        _ = (lst.length : ℚ) := one_mul _
    omega
  refine ⟨lst[(⌊q * (lst.length : ℚ)⌋).toNat], List.getElem_mem hidx, ?_⟩
  simp [selectVideo, hlst, List.getElem?_eq_getElem hidx]

/-- The `Message` branch after a successful selection: the turn is
decided by the intent and the lower-cased greeting check. -/
theorem onTurn_msg_ok (classify : Activity → ClassificationResult)
    (videos : String → Option (List String)) (q : ℚ) (a : Activity)
    (body : String) (v : String)
    (hty : a.type = ActivityType.message) (hbody : a.text = some body)
    (hsel : selectVideo videos (classify a).sentiment q = Except.ok v) :
    onTurn classify videos q a =
      if (classify a).intent ≠ "None" then
        ⟨true, [OutMessage.text ackText, heroOf v], none⟩
      else if jsToLowerCase body = "hi" ∨ jsToLowerCase body = "hello" then
        ⟨true, welcomeUserMessage a, none⟩
      else ⟨true, [], none⟩ := by
  simp only [onTurn, hty, hbody, hsel]

/-- The `Message` branch when selection fails: the turn aborts with the
selection error and nothing is sent. -/
theorem onTurn_msg_err (classify : Activity → ClassificationResult)
    (videos : String → Option (List String)) (q : ℚ) (a : Activity)
    (e : TurnError)
    (hty : a.type = ActivityType.message)
    (hsel : selectVideo videos (classify a).sentiment q = Except.error e) :
    onTurn classify videos q a = ⟨true, [], some e⟩ := by
  simp only [onTurn, hty, hsel]

/-- The `Message` branch when the body is missing: selection succeeded
but `activity.text.toLowerCase()` dereferences `undefined`. -/
theorem onTurn_msg_nobody (classify : Activity → ClassificationResult)
    (videos : String → Option (List String)) (q : ℚ) (a : Activity)
    (v : String)
    (hty : a.type = ActivityType.message) (hbody : a.text = none)
    (hsel : selectVideo videos (classify a).sentiment q = Except.ok v) :
    onTurn classify videos q a = ⟨true, [], some TurnError.textUndefined⟩ := by
  simp only [onTurn, hty, hbody, hsel]

/-- The `ConversationUpdate` branch delegates to `welcomeUser` and never
calls the recognizer. -/
theorem onTurn_update (classify : Activity → ClassificationResult)
    (videos : String → Option (List String)) (q : ℚ) (a : Activity)
    (hty : a.type = ActivityType.conversationUpdate) :
    onTurn classify videos q a = ⟨false, welcomeUser a, none⟩ := by
  simp only [onTurn, hty]

/-- C1: for every Message event whose classification returns an intent
different from "None" and a sentiment label with a non-empty media-library
entry, `onTurn` sends exactly two messages in order: the fixed
acknowledgment text, then a hero card whose open-URL action value is a
video drawn from exactly that sentiment's list. -/
theorem claim1 (classify : Activity → ClassificationResult)
    (videos : String → Option (List String)) (q : ℚ) (a : Activity)
    (body : String) (lst : List String)
    (hq0 : 0 ≤ q) (hq1 : q < 1)
    (hty : a.type = ActivityType.message) (hbody : a.text = some body)
    (hlst : videos (classify a).sentiment = some lst) (hne : lst ≠ [])
    (hint : (classify a).intent ≠ "None") :
    ∃ v ∈ lst, (onTurn classify videos q a).sent =
      [OutMessage.text ackText,
       OutMessage.heroCard "" [videoPreviewOf v]
         [CardAction.openUrl "Open in Youtube" v]] := by
  obtain ⟨v, hv, hsel⟩ :=
    selectVideo_mem videos (classify a).sentiment q lst hq0 hq1 hlst hne
  refine ⟨v, hv, ?_⟩
  rw [onTurn_msg_ok classify videos q a body v hty hbody hsel, if_pos hint]
  rfl

/-- C1 witness: a concrete confident classification against a two-entry
"Happy" library sends the acknowledgment and a card for one of the two
videos. -/
theorem claim1_witness :
    ∃ v ∈ ["https://www.youtube.com/watch?v=abc",
           "https://www.youtube.com/watch?v=def"],
      (onTurn clMusic vidsHappy 0 actPlay).sent =
        [OutMessage.text ackText,
         OutMessage.heroCard "" [videoPreviewOf v]
           [CardAction.openUrl "Open in Youtube" v]] :=
  claim1 clMusic vidsHappy 0 actPlay "play something"
    ["https://www.youtube.com/watch?v=abc", "https://www.youtube.com/watch?v=def"]
    (le_refl 0) zero_lt_one rfl rfl (by decide) (by decide) (by decide)

/-- C2 counterexample: the body " hi " is a greeting after lower-casing
and trimming and the classified intent is "None", yet `onTurn` sends
nothing (the source lower-cases but never trims, so " hi " fails the
greeting comparison). -/
theorem claim2_counterexample :
    (trimWS (jsToLowerCase " hi ") = "hi" ∧
      (clNone actHiSpace).intent = "None") ∧
    (onTurn clNone vidsSad 0 actHiSpace).sent = [] := by
  refine ⟨⟨by decide, rfl⟩, ?_⟩
  have hsel : selectVideo vidsSad (clNone actHiSpace).sentiment 0 =
      Except.ok "https://www.youtube.com/watch?v=abc" := by
    simp [selectVideo, vidsSad, clNone]
  rw [onTurn_msg_ok clNone vidsSad 0 actHiSpace " hi "
    "https://www.youtube.com/watch?v=abc" rfl rfl hsel]
  decide

/-- C2 amended: for every Message event whose classification returns
intent "None" and a sentiment with a non-empty media-library entry, and
whose body equals "hi" or "hello" after lower-casing alone (the source
never trims), `onTurn` sends the onboarding sequence and no media
card. -/
theorem claim2_amended (classify : Activity → ClassificationResult)
    (videos : String → Option (List String)) (q : ℚ) (a : Activity)
    (body : String) (lst : List String)
    (hq0 : 0 ≤ q) (hq1 : q < 1)
    (hty : a.type = ActivityType.message) (hbody : a.text = some body)
    (hint : (classify a).intent = "None")
    (hgreet : jsToLowerCase body = "hi" ∨ jsToLowerCase body = "hello")
    (hlst : videos (classify a).sentiment = some lst) (hne : lst ≠ []) :
    (onTurn classify videos q a).sent = onboardingMessages a.fromName ∧
    ∀ t i b, OutMessage.heroCard t i b ∉ (onTurn classify videos q a).sent := by
  obtain ⟨v, hv, hsel⟩ :=
    selectVideo_mem videos (classify a).sentiment q lst hq0 hq1 hlst hne
  rw [onTurn_msg_ok classify videos q a body v hty hbody hsel,
    if_neg (fun h => h hint), if_pos hgreet]
  refine ⟨rfl, ?_⟩
  intro t i b
  simp [welcomeUserMessage, onboardingMessages]

/-- C2 amended, witness: the body "Hello" with intent "None" and a
populated "Sad" entry produces exactly the onboarding sequence. -/
theorem claim2_witness :
    (onTurn clNone vidsSad 0 actHello).sent =
      onboardingMessages actHello.fromName ∧
    ∀ t i b, OutMessage.heroCard t i b ∉ (onTurn clNone vidsSad 0 actHello).sent :=
  claim2_amended clNone vidsSad 0 actHello "Hello"
    ["https://www.youtube.com/watch?v=abc"]
    (le_refl 0) zero_lt_one rfl rfl rfl (Or.inr (by decide)) (by decide)
    (by decide)

/-- C3: for every Message event whose classification returns intent
"None" and whose body is no greeting after lower-casing and trimming,
`onTurn` sends no outbound message at all. -/
theorem claim3 (classify : Activity → ClassificationResult)
    (videos : String → Option (List String)) (q : ℚ) (a : Activity)
    (body : String)
    (hty : a.type = ActivityType.message) (hbody : a.text = some body)
    (hint : (classify a).intent = "None")
    (h1 : trimWS (jsToLowerCase body) ≠ "hi")
    (h2 : trimWS (jsToLowerCase body) ≠ "hello") :
    (onTurn classify videos q a).sent = [] := by
  have g1 : jsToLowerCase body ≠ "hi" := fun h => h1 (by rw [h]; decide)
  have g2 : jsToLowerCase body ≠ "hello" := fun h => h2 (by rw [h]; decide)
  cases hsel : selectVideo videos (classify a).sentiment q with
  | error e => rw [onTurn_msg_err classify videos q a e hty hsel]
  | ok v =>
    rw [onTurn_msg_ok classify videos q a body v hty hbody hsel,
      if_neg (fun h => h hint), if_neg (by rintro (h | h); exacts [g1 h, g2 h])]

/-- C3 witness: a non-greeting body with intent "None" sends nothing. -/
theorem claim3_witness : (onTurn clNone vidsSad 0 actChat).sent = [] :=
  claim3 clNone vidsSad 0 actChat "what a day" rfl rfl rfl (by decide)
    (by decide)

/-- The onboarding animation card, the first message of every onboarding
sequence (used to count sequences). -/
def botAnimation : OutMessage :=
  OutMessage.animationCard "Welcome to Moody Tunes" [gifUrl]

/-- Counting onboarding sequences over the member loop of
`welcomeUser`: one animation card per non-bot member. -/
theorem count_botAnimation_flatMap (l : List Member) (rid : String)
    (name : Option String) :
    ((l.flatMap (fun m =>
        if m.id ≠ rid then onboardingMessages name else [])).count botAnimation)
      = (l.filter (fun m => m.id ≠ rid)).length := by
  induction l with
  | nil => rfl
  | cons m t ih =>
    simp only [ne_eq, ite_not, decide_not, onboardingMessages, botAnimation] at ih
    by_cases h : m.id = rid
    · simpa [h] using ih
    · simp [h, onboardingMessages, botAnimation, List.count_cons, ih]

/-- The members differing from the bot id are all members except those
equal to it. -/
theorem length_filter_ne_member (l : List Member) (rid : String) :
    (l.filter (fun m => m.id ≠ rid)).length
      = l.length - (l.filter (fun m => m.id = rid)).length := by
  induction l with
  | nil => rfl
  | cons m t ih =>
    have hle : (t.filter (fun m => decide (m.id = rid))).length ≤ t.length :=
      List.length_filter_le _ t
    simp only [decide_not] at ih
    by_cases h : m.id = rid
    · simp [h, List.filter_cons, ih]
    · simp [h, List.filter_cons, ih]
      omega

/-- C4: on a ParticipantsChanged (ConversationUpdate) event with N added
members of which M carry the bot's own (recipient) identity, `onTurn`
sends exactly N - M onboarding sequences — counted by their leading
animation card — and zero added members produce no action. -/
theorem claim4 (classify : Activity → ClassificationResult)
    (videos : String → Option (List String)) (q : ℚ) (a : Activity)
    (hty : a.type = ActivityType.conversationUpdate) :
    ((onTurn classify videos q a).sent.count botAnimation
      = a.membersAdded.length
        - (a.membersAdded.filter (fun m => m.id = a.recipientId)).length) ∧
    (a.membersAdded = [] → (onTurn classify videos q a).sent = []) := by
  rw [onTurn_update classify videos q a hty]
  constructor
  · show (welcomeUser a).count botAnimation = _
    rw [welcomeUser]
    by_cases h : a.membersAdded.length ≠ 0
    · rw [if_pos h, count_botAnimation_flatMap, length_filter_ne_member]
    · rw [if_neg h]
      have : a.membersAdded = [] := by
        simpa using List.length_eq_zero.mp (by omega)
      simp [this]
  · intro h
    show welcomeUser a = []
    simp [welcomeUser, h]

/-- C4 witness: two added members, one being the bot, yield exactly one
onboarding sequence and the empty-members implication holds vacuously. -/
theorem claim4_witness :
    ((onTurn clNone vidsSad 0 actJoin).sent.count botAnimation
      = actJoin.membersAdded.length
        - (actJoin.membersAdded.filter
            (fun m => m.id = actJoin.recipientId)).length) ∧
    (actJoin.membersAdded = [] → (onTurn clNone vidsSad 0 actJoin).sent = []) :=
  claim4 clNone vidsSad 0 actJoin rfl

/-- C5: the Message branch indexes the media library before looking at
the intent or the greeting text, so a sentiment without a non-empty
library entry makes the whole turn fail with no message sent, for every
classification result — including intent "None", where no media reply
would ever have been needed. -/
theorem claim5 (classify : Activity → ClassificationResult)
    (videos : String → Option (List String)) (q : ℚ) (a : Activity)
    (hty : a.type = ActivityType.message)
    (hmedia : videos (classify a).sentiment = none ∨
      videos (classify a).sentiment = some []) :
    ((onTurn classify videos q a).err).isSome = true ∧
    (onTurn classify videos q a).sent = [] := by
  rcases hmedia with h | h
  · rw [onTurn_msg_err classify videos q a TurnError.mediaLibraryUndefined hty
      (selectVideo_none videos (classify a).sentiment q h)]
    exact ⟨rfl, rfl⟩
  · rw [onTurn_msg_err classify videos q a TurnError.videoUndefined hty
      (selectVideo_empty videos (classify a).sentiment q h)]
    exact ⟨rfl, rfl⟩

/-- C5 witness: intent "None" with an unknown sentiment label still
fails the turn with nothing sent, although no media reply was needed. -/
theorem claim5_witness :
    ((onTurn clWeird vidsSad 0 actChat).err).isSome = true ∧
    (onTurn clWeird vidsSad 0 actChat).sent = [] :=
  claim5 clWeird vidsSad 0 actChat rfl (Or.inl (by decide))

/-- C6: a sentiment label whose media-library entry is empty or absent
makes media selection fail with an error that aborts the turn (it is not
swallowed: it is the turn's outcome), and no card is sent. -/
theorem claim6 (classify : Activity → ClassificationResult)
    (videos : String → Option (List String)) (q : ℚ) (a : Activity)
    (hty : a.type = ActivityType.message)
    (hmedia : videos (classify a).sentiment = none ∨
      videos (classify a).sentiment = some []) :
    (∃ e, (onTurn classify videos q a).err = some e) ∧
    ∀ t i b, OutMessage.heroCard t i b ∉ (onTurn classify videos q a).sent := by
  rcases hmedia with h | h
  · rw [onTurn_msg_err classify videos q a TurnError.mediaLibraryUndefined hty
      (selectVideo_none videos (classify a).sentiment q h)]
    exact ⟨⟨TurnError.mediaLibraryUndefined, rfl⟩, by simp⟩
  · rw [onTurn_msg_err classify videos q a TurnError.videoUndefined hty
      (selectVideo_empty videos (classify a).sentiment q h)]
    exact ⟨⟨TurnError.videoUndefined, rfl⟩, by simp⟩

/-- C6 witness: an empty "Sad" entry fails the turn with a surfaced
error and no hero card. -/
theorem claim6_witness :
    (∃ e, (onTurn clNone vidsSadEmpty 0 actHello).err = some e) ∧
    ∀ t i b, OutMessage.heroCard t i b ∉ (onTurn clNone vidsSadEmpty 0 actHello).sent :=
  claim6 clNone vidsSadEmpty 0 actHello rfl (Or.inr (by decide))

/-- C7 counterexample: on a Message event with no body the recognizer IS
invoked (the claim says the event is rejected before invoking it); the
turn then fails with nothing sent. -/
theorem claim7_counterexample :
    actNoBody.text = none ∧
    (onTurn clNone vidsSad 0 actNoBody).classifierCalled = true ∧
    (onTurn clNone vidsSad 0 actNoBody).sent = [] := by
  have hsel : selectVideo vidsSad (clNone actNoBody).sentiment 0 =
      Except.ok "https://www.youtube.com/watch?v=abc" := by
    simp [selectVideo, vidsSad, clNone]
  rw [onTurn_msg_nobody clNone vidsSad 0 actNoBody
    "https://www.youtube.com/watch?v=abc" rfl rfl hsel]
  exact ⟨rfl, rfl, rfl⟩

/-- C7 amended: for every Message event missing its body text, the turn
fails with an error and no reply is sent — but only after the external
classifier has been invoked; there is no upfront validation. -/
theorem claim7_amended (classify : Activity → ClassificationResult)
    (videos : String → Option (List String)) (q : ℚ) (a : Activity)
    (hty : a.type = ActivityType.message) (hbody : a.text = none) :
    (onTurn classify videos q a).classifierCalled = true ∧
    (onTurn classify videos q a).sent = [] ∧
    ((onTurn classify videos q a).err).isSome = true := by
  cases hsel : selectVideo videos (classify a).sentiment q with
  | error e =>
    rw [onTurn_msg_err classify videos q a e hty hsel]
    exact ⟨rfl, rfl, rfl⟩
  | ok v =>
    rw [onTurn_msg_nobody classify videos q a v hty hbody hsel]
    exact ⟨rfl, rfl, rfl⟩

/-- C7 amended, witness: the bodyless message against the "Happy"
library fails after the classifier ran, with nothing sent. -/
theorem claim7_witness :
    (onTurn clMusic vidsHappy 0 actNoBody).classifierCalled = true ∧
    (onTurn clMusic vidsHappy 0 actNoBody).sent = [] ∧
    ((onTurn clMusic vidsHappy 0 actNoBody).err).isSome = true :=
  claim7_amended clMusic vidsHappy 0 actNoBody rfl rfl

/-- C8: every onboarding sequence is exactly two messages in order — the
animated image with the fixed caption "Welcome to Moody Tunes", then the
suggested-replies prompt listing exactly Happy, Depressed, Angry,
Splendid — and the prompt's greeting text includes the user's display
name whenever one is available. -/
theorem claim8 (fromName : Option String) :
    onboardingMessages fromName =
      [OutMessage.animationCard "Welcome to Moody Tunes" [gifUrl],
       OutMessage.suggestedActions ["Happy", "Depressed", "Angry", "Splendid"]
         (greetText fromName)] ∧
    ∀ n, fromName = some n →
      ∃ pre post, greetText fromName = pre ++ n ++ post := by
  refine ⟨rfl, ?_⟩
  rintro n rfl
  exact ⟨"Hi ",
    ", I am Moody Tunes bot. I can suggest a song depending on your mood.. Start by choosing a mood:",
    rfl⟩

/-- C8 witness: the sequence for display name "Ada". -/
theorem claim8_witness :
    onboardingMessages (some "Ada") =
      [OutMessage.animationCard "Welcome to Moody Tunes" [gifUrl],
       OutMessage.suggestedActions ["Happy", "Depressed", "Angry", "Splendid"]
         (greetText (some "Ada"))] ∧
    ∀ n, (some "Ada" : Option String) = some n →
      ∃ pre post, greetText (some "Ada") = pre ++ n ++ post :=
  claim8 (some "Ada")

/-- C9: media selection is a pure, deterministic function of the
sentiment label, the contents of that sentiment's library entry, and the
random draw: any two libraries agreeing on the sentiment's entry yield
the same selection at the same draw (and in particular repeating the
same selection yields the same video). -/
theorem claim9 (v₁ v₂ : String → Option (List String)) (s : String) (q : ℚ)
    (h : v₁ s = v₂ s) :
    selectVideo v₁ s q = selectVideo v₂ s q := by
  unfold selectVideo
  rw [h]

/-- C9 witness: two libraries that agree at "Sad" but differ elsewhere
select identically at draw 0. -/
theorem claim9_witness : selectVideo vidsSad "Sad" 0 = selectVideo vidsSadB "Sad" 0 :=
  claim9 vidsSad vidsSadB "Sad" 0 (by decide)

/-- C10: the outcome of a turn is identical for every value of the
persisted welcomed-user flag store — the flag gates nothing — and
`handleTurn` never writes the store, returning it unchanged. -/
theorem claim10 (classify : Activity → ClassificationResult)
    (videos : String → Option (List String)) (q : ℚ) (a : Activity)
    (w₁ w₂ : WelcomeStore) :
    (handleTurn classify videos q a w₁).1 = (handleTurn classify videos q a w₂).1 ∧
    (handleTurn classify videos q a w₁).2 = w₁ :=
  ⟨rfl, rfl⟩

end MoodyTunes
